import Mathlib

/-!
Verification of `fourmat` (src/fourmat/lint.py), a CLI wrapper that
sequences three code-style tools (isort, black, flake8) over a project.

The embedding is shallow: pure string/list computations of the Python
source are translated into Lean functions; subprocess calls and the
filesystem are made explicit parameters (each tool invocation is an
abstract outcome: success or a raised Python exception; the filesystem
is a map from file names to optional contents).
-/

namespace Fourmat

/-! ## Python value model

The source compares `override is True` and `check is True` (identity with
the literal `True`), while `if check` in `isort`/`black` uses truthiness.
We model the Python values that can flow into these flags. -/

inductive PyVal where
  | bool (b : Bool)
  | int (n : Int)
deriving DecidableEq, Repr

/-- Translation of the Python test `v is True`: only the literal `True`
(`PyVal.bool true`) satisfies it; truthy non-`True` values do not. -/
def isLitTrue : PyVal → Bool
  | .bool true => true
  | _ => false

/-- Python truthiness (`if v:`): `bool b` is truthy iff `b`, an int is
truthy iff nonzero. -/
def truthy : PyVal → Bool
  | .bool b => b
  | .int n => n != 0

/-! ## String utilities from the Python standard library -/

/-- ASCII whitespace recognized by Python `str.split()` with no argument. -/
def isSpaceChar (c : Char) : Bool :=
  c == ' ' || c == '\t' || c == '\n' || c == '\r' || c == '\x0b' || c == '\x0c'

/-- Helper for `pySplit`: scan the character list keeping the (reversed)
current word in `acc`; words are maximal runs of non-whitespace. -/
def splitWsAux : List Char → List Char → List String
  | [], acc => if acc.isEmpty then [] else [String.mk acc.reverse]
  | c :: cs, acc =>
    if isSpaceChar c then
      (if acc.isEmpty then [] else [String.mk acc.reverse]) ++ splitWsAux cs []
    else
      splitWsAux cs (c :: acc)

/-- Python `s.split()` (no separator): split on runs of whitespace,
discarding empty strings. -/
def pySplit (s : String) : List String :=
  splitWsAux s.data []

/-- Python `PurePath(s).name`: the last path component, with empty and
`"."` segments dropped (pathlib removes `"."` parts and trailing
slashes; `".."` parts are kept). -/
def pathName (s : String) : List Char :=
  let segs := (s.splitOn "/").filter (fun seg => seg != "" && seg != ".")
  ((segs.getLastD "").data)

/-- CPython `PurePath.suffix` on a final component `name`: with
`i = name.rfind (chr 46)`, return `name[i:]` if `0 < i < len name - 1`,
else the empty string. Implemented on the reversed character list: `ext`
is the run after the last dot, `rest` starts at the last dot. -/
def suffixOfName (name : List Char) : String :=
  let rev := name.reverse
  let ext := rev.takeWhile (fun c => c != '.')
  let rest := rev.dropWhile (fun c => c != '.')
  match rest with
  | [] => ""
  | _ :: before =>
    if before.isEmpty then ""
    else if ext.isEmpty then ""
    else String.mk ('.' :: ext.reverse)

/-- Python `Path(s).suffix`. -/
def pySuffix (s : String) : String :=
  suffixOfName (pathName s)

/-- Python `fnmatch.fnmatch` restricted to patterns built from literal
characters and the wildcards used here: `*` matches any (possibly empty)
character sequence, `?` matches exactly one character. `fnmatch`
translates the glob to an anchored regex over the whole string and `*`
crosses path separators. The snapshot glob uses only `*` and literals. -/
def globMatch : List Char → List Char → Bool
  | [], s => s.isEmpty
  | '*' :: ps, [] => globMatch ps []
  | '*' :: ps, c :: cs => globMatch ps (c :: cs) || globMatch ('*' :: ps) cs
  | '?' :: _, [] => false
  | '?' :: ps, _ :: cs => globMatch ps cs
  | _ :: _, [] => false
  | p :: ps, c :: cs => (p == c) && globMatch ps cs
termination_by p s => (p.length, s.length)

/-! ## Constants from lint.py -/

def SNAPSHOT_GLOB : String := "*/snapshots/snap_*.py"

def SNAPSHOT_REGEX : String := ".*\\/snapshots\\/snap_.*\\.py"

def CONFIGURATION_FILES : List String := [".flake8", ".isort.cfg", "pyproject.toml"]

/-- `fnmatch.fnmatch(filename, SNAPSHOT_GLOB)`. -/
def matchesSnapshotGlob (filename : String) : Bool :=
  globMatch SNAPSHOT_GLOB.data filename.data

/-! ## get_project_paths -/

/-- `get_project_paths()`: `CONFIG_FILE.read_text().split()`. The config
file is passed explicitly: `none` means the file is missing, in which
case `read_text` raises `FileNotFoundError`, which propagates
(`Except.error`). -/
def get_project_paths (configFile : Option String) : Except Unit (List String) :=
  match configFile with
  | none => Except.error ()
  | some content => Except.ok (pySplit content)

/-! ## get_dirty_filenames -/

/-- The filter applied by `get_dirty_filenames` to each filename token:
`Path(filename).suffix == ".py" and not fnmatch.fnmatch(filename, SNAPSHOT_GLOB)`. -/
def isDirtyCandidate (filename : String) : Bool :=
  pySuffix filename == ".py" && !(matchesSnapshotGlob filename)

/-- `get_dirty_filenames`: the subprocess stdout of `git diff-index` is
passed explicitly; the function splits it on whitespace and keeps the
tokens passing `isDirtyCandidate`, preserving order. -/
def get_dirty_filenames (stdout : String) : List String :=
  (pySplit stdout).filter isDirtyCandidate

/-! ## copy_configuration -/

/-- `copy_configuration(override)`: for each of the three configuration
names, if `override is True` or no file of that name exists in the
working directory, copy the bundled asset there (`shutil.copy` makes the
destination's contents those of the asset). `assets` gives each bundled
template's contents; the working directory is `fs : String → Option
String` (`none` = no such file). -/
def copy_configuration (override : PyVal) (assets : String → String)
    (fs : String → Option String) : String → Option String :=
  CONFIGURATION_FILES.foldl
    (fun acc name =>
      if isLitTrue override || (acc name).isNone then
        fun n => if n = name then some (assets name) else acc n
      else acc)
    fs

/-! ## Tool runners: command-line construction -/

/-- The argument list built by `isort(paths, project_paths=…, check=…)`. -/
def isort_cmd (paths project_paths : List String) (check : Bool) : List String :=
  "isort" ::
    ((if check then ["--check", "--diff"] else ["--apply"])
      ++ project_paths.foldr (fun path acc => "--project" :: path :: acc) []
      ++ ["--skip-glob", SNAPSHOT_GLOB, "--atomic", "--quiet", "--recursive", "--"]
      ++ paths)

/-- The argument list built by `black(paths, check=…)`. -/
def black_cmd (paths : List String) (check : Bool) : List String :=
  "black" ::
    ((if check then ["--check", "--diff"] else [])
      ++ ["--exclude", SNAPSHOT_REGEX, "--quiet", "--"]
      ++ paths)

/-- `flake8(paths, check=…)`: `assert check is True, "Flake8 has no fix
mode"`, then run the subprocess. The result is the command line actually
handed to `subprocess.run`, or `Except.error` with the assertion message
when the assertion fires (before any subprocess is spawned). -/
def flake8 (paths : List String) (check : PyVal) : Except String (List String) :=
  if isLitTrue check then Except.ok ("flake8" :: "--" :: paths)
  else Except.error "Flake8 has no fix mode"

/-! ## Command layer: exception-flow model of `check` and `fix`

Each step of a command either succeeds (`none`) or raises a Python
exception (`some e`). Subprocess results are abstract: a tool runner
raises `CalledProcessError` exactly when its subprocess exits non-zero
(`subprocess.run(..., check=True)`), and may raise other exceptions
(e.g. `OSError` when the tool binary is missing) or `KeyboardInterrupt`. -/

inductive PyExc where
  | calledProcessError (returncode : Int)
  | keyboardInterrupt
  | otherError
deriving DecidableEq, Repr

/-- How a command invocation ends: a process exit with a code (normal
return exits 0; `sys.exit(n)` exits `n`), or an exception escaping the
command function uncaught. -/
inductive CmdResult where
  | exited (code : Int)
  | uncaught (e : PyExc)
deriving DecidableEq, Repr

/-- Trace of one command run: the tool runners invoked, in invocation
order, and how the process ended. -/
structure RunTrace where
  invoked : List String
  result : CmdResult
deriving DecidableEq, Repr

/-- The `record_failure` context manager of `check`: a step outcome under
it either leaves the running status unchanged (success), sets the status
to 1 (`except CalledProcessError`), or re-raises any other exception. -/
def record_failure (status : Int) (outcome : Option PyExc) : Except PyExc Int :=
  match outcome with
  | none => Except.ok status
  | some (.calledProcessError _) => Except.ok 1
  | some e => Except.error e

/-- The outermost handler of `check`: `except KeyboardInterrupt: pass`
turns an interrupt into a normal return (process exit 0); every other
exception escapes. -/
def checkHandler (e : PyExc) : CmdResult :=
  match e with
  | .keyboardInterrupt => .exited 0
  | e => .uncaught e

/-- The handlers of `fix`: `except CalledProcessError as e:
sys.exit(e.returncode)` and `except KeyboardInterrupt: pass`. -/
def fixHandler (e : PyExc) : CmdResult :=
  match e with
  | .calledProcessError rc => .exited rc
  | .keyboardInterrupt => .exited 0
  | e => .uncaught e

/-- The `check` command. Steps in source order: `get_project_paths`,
`copy_configuration`, then the three tool runners, each wrapped in
`record_failure`; finally `if status: sys.exit(status)`. The five
parameters are the outcomes the corresponding steps would have if
reached. -/
def check (gpp copyCfg iso blk flk : Option PyExc) : RunTrace :=
  match gpp with
  | some e => ⟨[], checkHandler e⟩
  | none =>
    match copyCfg with
    | some e => ⟨[], checkHandler e⟩
    | none =>
      match record_failure 0 iso with
      | .error e => ⟨["isort"], checkHandler e⟩
      | .ok s1 =>
        match record_failure s1 blk with
        | .error e => ⟨["isort", "black"], checkHandler e⟩
        | .ok s2 =>
          match record_failure s2 flk with
          | .error e => ⟨["isort", "black", "flake8"], checkHandler e⟩
          | .ok s3 => ⟨["isort", "black", "flake8"], .exited s3⟩

/-- The `fix` command. Steps in source order: `get_project_paths`,
`copy_configuration`, `isort` (fix mode), `black` (fix mode), `flake8`;
the whole body is inside one `try`, so the first raised exception goes
straight to `fixHandler` and no later step runs. -/
def fix (gpp copyCfg iso blk flk : Option PyExc) : RunTrace :=
  match gpp with
  | some e => ⟨[], fixHandler e⟩
  | none =>
    match copyCfg with
    | some e => ⟨[], fixHandler e⟩
    | none =>
      match iso with
      | some e => ⟨["isort"], fixHandler e⟩
      | none =>
        match blk with
        | some e => ⟨["isort", "black"], fixHandler e⟩
        | none =>
          match flk with
          | some e => ⟨["isort", "black", "flake8"], fixHandler e⟩
          | none => ⟨["isort", "black", "flake8"], .exited 0⟩

/-- A step outcome that is either success or a subprocess non-zero-exit
failure (`CalledProcessError`) — the outcomes claim C1 ranges over. -/
def cpeOrOk (o : Option PyExc) : Prop :=
  o = none ∨ ∃ rc, o = some (.calledProcessError rc)

/-! ## Spec-side definition for the refinement claim C7 -/

/-- Written from the spec's words for claim C7: the check+diff flags when
check is true and the apply flag otherwise, then one repetition of the
project flag with its value per project root in order, then the snapshot
skip-glob, the atomic flag, the quiet flag, the recursive flag, the
argument separator, and the paths. -/
def isort_cmd_specified (paths project_paths : List String) (check : Bool) : List String :=
  ["isort"]
    ++ (if check then ["--check", "--diff"] else ["--apply"])
    ++ (project_paths.map (fun path => ["--project", path])).flatten
    ++ ["--skip-glob", "*/snapshots/snap_*.py"]
    ++ ["--atomic"] ++ ["--quiet"] ++ ["--recursive"] ++ ["--"]
    ++ paths

/-! ## Theorems -/

/-- Helper: the project-flag fold of `isort_cmd` is the flattening of the
per-root two-element argument pairs. -/
theorem foldr_project_flags (l : List String) :
    l.foldr (fun path acc => "--project" :: path :: acc) [] =
      (l.map (fun path => ["--project", path])).flatten := by
  induction l with
  | nil => rfl
  | cons h t ih => simp [ih]

/-- C1: in a run of `check` whose setup succeeds and whose tool runners
either succeed or fail with a subprocess failure (`CalledProcessError`),
all three runners (isort, black, flake8) are invoked in that order, and
the process exits 1 if at least one runner failed and 0 if none did. -/
theorem check_invokes_all_tools_and_aggregates (iso blk flk : Option PyExc)
    (hi : cpeOrOk iso) (hb : cpeOrOk blk) (hf : cpeOrOk flk) :
    (check none none iso blk flk).invoked = ["isort", "black", "flake8"] ∧
    (check none none iso blk flk).result =
      CmdResult.exited (if iso = none ∧ blk = none ∧ flk = none then 0 else 1) := by
  rcases hi with rfl | ⟨r1, rfl⟩ <;> rcases hb with rfl | ⟨r2, rfl⟩ <;>
    rcases hf with rfl | ⟨r3, rfl⟩ <;>
      simp [check, record_failure, checkHandler]

/-- Witness for C1 at a concrete input: isort fails with exit code 2,
black and flake8 succeed; all three run and the process exits 1. -/
theorem check_invokes_all_tools_and_aggregates_witness :
    (check none none (some (PyExc.calledProcessError 2)) none none).invoked
        = ["isort", "black", "flake8"] ∧
    (check none none (some (PyExc.calledProcessError 2)) none none).result =
      CmdResult.exited
        (if some (PyExc.calledProcessError 2) = none ∧ (none : Option PyExc) = none
            ∧ (none : Option PyExc) = none then 0 else 1) := by
  exact check_invokes_all_tools_and_aggregates _ _ _
    (Or.inr ⟨2, rfl⟩) (Or.inl rfl) (Or.inl rfl)

/-- C2: in `fix` (setup succeeding), the runners execute in the order
isort, black, flake8; the first runner raising a subprocess failure
aborts the run — no later runner is invoked and the process exit code is
that tool's exit code — and when no runner fails the exit code is 0. -/
theorem fix_aborts_at_first_failure (blk flk flk2 : Option PyExc) (rc : Int) :
    fix none none (some (.calledProcessError rc)) blk flk
        = ⟨["isort"], .exited rc⟩ ∧
    fix none none none (some (.calledProcessError rc)) flk2
        = ⟨["isort", "black"], .exited rc⟩ ∧
    fix none none none none (some (.calledProcessError rc))
        = ⟨["isort", "black", "flake8"], .exited rc⟩ ∧
    fix none none none none none = ⟨["isort", "black", "flake8"], .exited 0⟩ :=
  ⟨rfl, rfl, rfl, rfl⟩

/-- C3: `get_dirty_filenames` returns the order-preserving subsequence
(a filter, hence a sublist) of the whitespace-separated tokens of the
diff command's stdout whose `Path.suffix` is `".py"` and that do not
match the snapshot glob; every returned element has suffix `".py"` and
none matches the glob. -/
theorem get_dirty_filenames_py_non_snapshot (stdout : String) :
    get_dirty_filenames stdout = (pySplit stdout).filter isDirtyCandidate ∧
    (get_dirty_filenames stdout).Sublist (pySplit stdout) ∧
    ∀ f ∈ get_dirty_filenames stdout,
      pySuffix f = ".py" ∧ matchesSnapshotGlob f = false := by
  refine ⟨rfl, List.filter_sublist _, ?_⟩
  intro f hf
  have h := List.of_mem_filter hf
  unfold isDirtyCandidate at h
  simp only [Bool.and_eq_true, beq_iff_eq, Bool.not_eq_true'] at h
  exact h

/-- C4: `copy_configuration` with `override=False` leaves a pre-existing
file with one of the three configuration names untouched, and with
`override=True` makes each of the three destination files identical to
the bundled template regardless of prior contents. -/
theorem copy_configuration_override_semantics (assets : String → String)
    (fs : String → Option String) (name : String) (c : String)
    (hmem : name ∈ CONFIGURATION_FILES) :
    (fs name = some c →
      copy_configuration (PyVal.bool false) assets fs name = some c) ∧
    copy_configuration (PyVal.bool true) assets fs name = some (assets name) := by
  fin_cases hmem <;> refine ⟨fun h => ?_, ?_⟩ <;>
    by_cases h1 : fs ".flake8" = none <;>
    by_cases h2 : fs ".isort.cfg" = none <;>
    by_cases h3 : fs "pyproject.toml" = none <;>
    simp_all [copy_configuration, CONFIGURATION_FILES, isLitTrue]

/-- Witness for C4 at a concrete state: `.flake8` pre-exists with
contents "old"; override=False keeps "old", override=True installs the
template "T". -/
theorem copy_configuration_override_semantics_witness :
    copy_configuration (PyVal.bool false) (fun _ => "T")
      (fun n => if n = ".flake8" then some "old" else none) ".flake8" = some "old" ∧
    copy_configuration (PyVal.bool true) (fun _ => "T")
      (fun n => if n = ".flake8" then some "old" else none) ".flake8" = some "T" := by
  refine ⟨?_, ?_⟩
  · exact (copy_configuration_override_semantics (fun _ => "T")
      (fun n => if n = ".flake8" then some "old" else none) ".flake8" "old"
      (by simp [CONFIGURATION_FILES])).1 (by simp)
  · exact (copy_configuration_override_semantics (fun _ => "T")
      (fun n => if n = ".flake8" then some "old" else none) ".flake8" "old"
      (by simp [CONFIGURATION_FILES])).2

/-- C5: calling the flake8 runner with any `check` argument other than
the literal `True` makes the assertion fail (with its message) before
any subprocess command is produced. -/
theorem flake8_fix_request_asserts (paths : List String) (checkArg : PyVal)
    (h : checkArg ≠ PyVal.bool true) :
    flake8 paths checkArg = Except.error "Flake8 has no fix mode" := by
  have hc : isLitTrue checkArg = false := by
    cases checkArg with
    | bool b =>
      cases b with
      | true => exact absurd rfl h
      | false => rfl
    | int n => rfl
  simp [flake8, hc]

/-- Witness for C5: a fix-mode request (`check=False`) on a concrete
path list yields the assertion error. -/
theorem flake8_fix_request_asserts_witness :
    PyVal.bool false ≠ PyVal.bool true ∧
    flake8 ["a.py"] (PyVal.bool false) = Except.error "Flake8 has no fix mode" :=
  ⟨by decide, flake8_fix_request_asserts ["a.py"] (PyVal.bool false) (by decide)⟩

/-- C6: `get_project_paths` returns the whitespace-split tokens of the
config file's contents in order — on `"src tests"` it returns
`["src", "tests"]` — and propagates an error when the file is missing. -/
theorem get_project_paths_whitespace_split :
    get_project_paths (some "src tests") = Except.ok ["src", "tests"] ∧
    (∀ content, get_project_paths (some content) = Except.ok (pySplit content)) ∧
    get_project_paths none = Except.error () :=
  ⟨rfl, fun _ => rfl, rfl⟩

/-- C7: the isort runner builds exactly the command line described by
the spec: check+diff flags in check mode and the apply flag otherwise,
then one project flag per root in order, then the snapshot skip-glob,
atomic, quiet and recursive flags, the separator, and the paths. -/
theorem isort_cmd_builds_specified_cmdline (paths project_paths : List String)
    (check : Bool) :
    isort_cmd paths project_paths check = isort_cmd_specified paths project_paths check := by
  simp [isort_cmd, isort_cmd_specified, foldr_project_flags, SNAPSHOT_GLOB]

/-- C8: a `KeyboardInterrupt` raised during any step of `check` or `fix`
is caught at the command's outermost scope: no further step runs and the
process exits cleanly with code 0. -/
theorem interrupt_caught_silent_exit (a b c d : Option PyExc) :
    check (some .keyboardInterrupt) a b c d = ⟨[], .exited 0⟩ ∧
    check none (some .keyboardInterrupt) b c d = ⟨[], .exited 0⟩ ∧
    check none none (some .keyboardInterrupt) c d = ⟨["isort"], .exited 0⟩ ∧
    check none none none (some .keyboardInterrupt) d = ⟨["isort", "black"], .exited 0⟩ ∧
    check none none none none (some .keyboardInterrupt)
        = ⟨["isort", "black", "flake8"], .exited 0⟩ ∧
    fix (some .keyboardInterrupt) a b c d = ⟨[], .exited 0⟩ ∧
    fix none (some .keyboardInterrupt) b c d = ⟨[], .exited 0⟩ ∧
    fix none none (some .keyboardInterrupt) c d = ⟨["isort"], .exited 0⟩ ∧
    fix none none none (some .keyboardInterrupt) d = ⟨["isort", "black"], .exited 0⟩ ∧
    fix none none none none (some .keyboardInterrupt)
        = ⟨["isort", "black", "flake8"], .exited 0⟩ :=
  ⟨rfl, rfl, rfl, rfl, rfl, rfl, rfl, rfl, rfl, rfl⟩

/-- C9: the `record_failure` recorder of `check` converts only
`CalledProcessError` into the failure flag; any other exception (e.g. an
OS error from a missing tool binary) propagates out of the recorder,
aborts the remaining runners, and escapes the command uncaught instead
of becoming exit status 1. -/
theorem check_recorder_catches_only_cpe (blk flk : Option PyExc) (s : Int) :
    record_failure s (some .otherError) = Except.error .otherError ∧
    (∀ rc, record_failure s (some (.calledProcessError rc)) = Except.ok 1) ∧
    check none none (some .otherError) blk flk
        = ⟨["isort"], .uncaught .otherError⟩ ∧
    check none none none (some .otherError) flk
        = ⟨["isort", "black"], .uncaught .otherError⟩ ∧
    check none none none none (some .otherError)
        = ⟨["isort", "black", "flake8"], .uncaught .otherError⟩ :=
  ⟨rfl, fun _ => rfl, rfl, rfl, rfl⟩

/-- C10: `copy_configuration` tests `override is True` (identity), so
any truthy argument other than the literal `True` (e.g. the int 1)
behaves exactly as `override=False`: a configuration file is copied only
when no file of that name exists at the destination. -/
theorem copy_configuration_is_true_identity (override : PyVal)
    (ht : truthy override = true) (hne : override ≠ PyVal.bool true)
    (assets : String → String) (fs : String → Option String) :
    copy_configuration override assets fs = copy_configuration (PyVal.bool false) assets fs := by
  have h : isLitTrue override = false := by
    cases override with
    | bool b =>
      cases b with
      | true => exact absurd rfl hne
      | false => rfl
    | int n => rfl
  simp [copy_configuration, h, isLitTrue]

/-- Witness for C10 at the concrete truthy non-`True` value 1. -/
theorem copy_configuration_is_true_identity_witness :
    truthy (PyVal.int 1) = true ∧
    PyVal.int 1 ≠ PyVal.bool true ∧
    copy_configuration (PyVal.int 1) (fun _ => "T") (fun _ => none)
      = copy_configuration (PyVal.bool false) (fun _ => "T") (fun _ => none) :=
  ⟨by decide, by decide,
    copy_configuration_is_true_identity (PyVal.int 1) (by decide) (by decide)
      (fun _ => "T") (fun _ => none)⟩

end Fourmat
